import Mathlib

/-
Verification of the up163cloud bulk uploader (src/main.py) against its
natural-language specification.

The embedding below translates the orchestrator, resume calculator and
failure ledger of `NcmUploader` into Lean:

* `SongInfo` mirrors the dict built by `get_all_song_info` (id, size, ext,
  bitrate, md5); ids are modelled as integers (`int(song_info["id"])`).
* Remote HTTP calls are modelled by a `RemoteEnv` of oracle functions; an
  `Except Unit` result models a Python exception escaping that call
  (aiohttp errors, JSON parse errors not caught inside the helper, etc.).
* `tryToUploadOneSong` mirrors `_try_to_upload_one_song` together with
  `_send_upload_request`; it additionally returns the list of remote calls
  issued and the list of ledger appends performed, which in the source are
  side effects (HTTP requests and `_save_failed_id` writes).
* `uploadOneSong` mirrors `_upload_one_song` (the per-workflow
  `try/except Exception` boundary that converts an exception into a ledger
  append of the song id).
* `asyncUploadSongs` mirrors `_async_upload_songs` at the level of results:
  each song is processed by its own independent workflow and every
  dispatched workflow completes.  The semaphore-based concurrency cap is
  modelled separately as the transition system `SchedStep`/`Reachable`:
  `acquire` is entering `async with sem` (possible only when the semaphore
  counter is positive), `release` is leaving it when the workflow finishes.
* The failure ledger file `failed_ids.txt` is modelled as
  `Option (List Int)`: `none` is an absent file, `some lines` the list of
  stripped lines (all lines written by `_save_failed_id` are integer ids).
  `getLastFailedId` mirrors `_get_last_failed_id`: `ids[-1]` on an empty
  line list raises IndexError, modelled as `.error ()`.
* `getResumeSongInfoList` mirrors `get_resume_song_info_list`; its `for`
  loop with `enumerate` is the structural recursion `resumeScan`.  The
  informational console message printed in each branch is modelled by
  `ResumeNote`.
* `readSongsData` mirrors `_read_songs_data` over a minimal JSON value
  type: the argument is the outcome of `json.load` (`.error ()` is a
  `json.JSONDecodeError`, which is caught), and `data.get("data", [])`
  raises AttributeError when the decoded value is not an object, which is
  not caught.
-/

namespace Up163Cloud

/-- One song descriptor, as built by `get_all_song_info` from a catalog
record: `{id, size, ext, bitrate, md5}`. -/
structure SongInfo where
  id : Int
  size : Int
  ext : String
  bitrate : Int
  md5 : String
deriving Repr, DecidableEq

/-- One entry of the detail-lookup response (`songs[0]` in
`_try_to_upload_one_song`): a name, the list of artist names (`ar`), and
the album name (`al.name`). -/
structure SongDetail where
  name : String
  ar : List String
  al : String
deriving Repr, DecidableEq

/-- A descriptor enriched with artist and album after a successful detail
lookup (lines 65-66 of main.py mutate the dict in place). -/
structure EnrichedSong where
  base : SongInfo
  artist : String
  album : String
deriving Repr, DecidableEq

/-- One entry of the `failed` list in the import response. -/
structure ImportFailure where
  songId : Int
  code : Int
deriving Repr, DecidableEq

/-- The parsed import response: `data.successSongs` and `data.failed`. -/
structure ImportResponse where
  successSongs : List Int
  failed : List ImportFailure
deriving Repr, DecidableEq

/-- A remote HTTP call issued by one workflow, keyed by the song id. -/
inductive RemoteCall
  | existenceCheck (songId : Int)
  | detailLookup (songId : Int)
  | importRequest (songId : Int)
deriving Repr, DecidableEq

/-- The Remote Song Service, as an oracle over song ids.  An `.error ()`
result models a Python exception escaping the corresponding helper
(`_has_uploaded`, `get_song_details`, `_send_upload_request`). -/
structure RemoteEnv where
  hasUploaded : Int → Except Unit Bool
  songDetails : Int → Except Unit (List SongDetail)
  importSong : EnrichedSong → Except Unit ImportResponse

/-- The terminal state of one per-song workflow. -/
inductive Outcome
  | skipped
  | imported
  | failedNoDetails
  | failedRemoteRejected
  | failedException
deriving Repr, DecidableEq

/-- `_send_upload_request` (lines 147-173): issues the import call and,
when the remote reports no successful songs, appends the song id to
`failed_ids.txt` if and only if every entry of the `failed` list has error
code -100 (the "file already exists" code).  Returns the outcome and the
list of ledger appends performed. -/
def sendUploadRequest (env : RemoteEnv) (song : EnrichedSong) :
    Except Unit Outcome × List Int :=
  match env.importSong song with
  | .error e => (.error e, [])
  | .ok resp =>
      if resp.successSongs ≠ [] then
        (.ok .imported, [])
      else if resp.failed.all (fun f => f.code = -100) then
        (.ok .failedRemoteRejected, [song.base.id])
      else
        (.ok .failedRemoteRejected, [])

/-- `_try_to_upload_one_song` (lines 48-67): existence check, then detail
lookup, then import.  Returns the outcome (`.error ()` when an exception
escapes), the remote calls issued, and the ledger appends performed.
`song_details[0]["ar"][0]` raises IndexError when `ar` is empty. -/
def tryToUploadOneSong (env : RemoteEnv) (song : SongInfo) :
    Except Unit Outcome × List RemoteCall × List Int :=
  let songId := song.id
  match env.hasUploaded songId with
  | .error e => (.error e, [.existenceCheck songId], [])
  | .ok true => (.ok .skipped, [.existenceCheck songId], [])
  | .ok false =>
    match env.songDetails songId with
    | .error e => (.error e, [.existenceCheck songId, .detailLookup songId], [])
    | .ok [] => (.ok .failedNoDetails, [.existenceCheck songId, .detailLookup songId], [])
    | .ok (d :: _) =>
      match d.ar with
      | [] => (.error (), [.existenceCheck songId, .detailLookup songId], [])
      | artist :: _ =>
        let r := sendUploadRequest env ⟨song, artist, d.al⟩
        (r.1, [.existenceCheck songId, .detailLookup songId, .importRequest songId], r.2)

/-- `_upload_one_song` (lines 41-46): the per-workflow exception boundary.
Any exception from the inner workflow is caught and converted into a
ledger append of the song id; the function itself never raises. -/
def uploadOneSong (env : RemoteEnv) (song : SongInfo) :
    Outcome × List RemoteCall × List Int :=
  match tryToUploadOneSong env song with
  | (.ok o, calls, appends) => (o, calls, appends)
  | (.error _, calls, appends) => (.failedException, calls, appends ++ [song.id])

/-- `_async_upload_songs` (lines 30-39) at the level of per-song results:
every song in the resumed list is processed by its own workflow and the
run completes with one result per song (`asyncio.gather` over the tasks;
ordering across workflows is irrelevant to the recorded effects). -/
def asyncUploadSongs (env : RemoteEnv) (songs : List SongInfo) :
    List (Outcome × List RemoteCall × List Int) :=
  songs.map (uploadOneSong env)

/-- `_get_last_failed_id` (lines 182-188).  `none` models an absent
`failed_ids.txt`; for a present file, `ids[-1]` raises IndexError when the
file has no lines (modelled as `.error ()`). -/
def getLastFailedId (ledger : Option (List Int)) : Except Unit (Option Int) :=
  match ledger with
  | none => .ok none
  | some ids =>
    match ids.getLast? with
    | none => .error ()
    | some x => .ok (some x)

/-- The informational console message printed by
`get_resume_song_info_list` in each of its three branches. -/
inductive ResumeNote
  | noFailureRecord
  | matchedAt (uploaded : Nat) (failedId : Int)
  | noMatch
deriving Repr, DecidableEq

/-- The `for index, song_info in enumerate(song_info_list)` loop of
`get_resume_song_info_list`: index of the first descriptor whose id equals
the marker, or `none`. -/
def resumeScan (songs : List SongInfo) (marker : Int) : Option Nat :=
  match songs with
  | [] => none
  | s :: rest =>
    if s.id = marker then some 0
    else (resumeScan rest marker).map (· + 1)

/-- `get_resume_song_info_list` (lines 190-201): returns the sub-list to
process this run, together with the informational note printed. -/
def getResumeSongInfoList (songs : List SongInfo) (ledger : Option (List Int)) :
    Except Unit (List SongInfo × ResumeNote) :=
  match getLastFailedId ledger with
  | .error e => .error e
  | .ok none => .ok (songs, .noFailureRecord)
  | .ok (some marker) =>
    match resumeScan songs marker with
    | some i => .ok (songs.drop (i + 1), .matchedAt (i + 1) marker)
    | none => .ok (songs, .noMatch)

/-- A minimal JSON value, the result of `json.load`. -/
inductive Json
  | null
  | bool (b : Bool)
  | num (n : Int)
  | str (s : String)
  | arr (xs : List Json)
  | obj (fields : List (String × Json))

/-- Python `dict.get(key, default)` on an object's field list. -/
def dictGet (fields : List (String × Json)) (key : String) (default : Json) : Json :=
  match fields.lookup key with
  | some v => v
  | none => default

/-- `_read_songs_data` (lines 85-93) applied to the outcome of
`json.load`: a `json.JSONDecodeError` (`.error ()`) is caught, an error
message is printed and `[]` is returned; on a decoded value,
`data.get("data", [])` raises AttributeError (uncaught) unless the value
is an object.  The returned Bool records whether the parse-error message
was printed. -/
def readSongsData (parsed : Except Unit Json) : Except Unit (Json × Bool) :=
  match parsed with
  | .error _ => .ok (.arr [], true)
  | .ok (.obj fields) => .ok (dictGet fields "data" (.arr []), false)
  | .ok _ => .error ()

/-- State of the semaphore-gated scheduler of `_async_upload_songs`:
`avail` is the semaphore counter, `waiting` counts workflows that have not
yet entered `async with sem`, `running` the in-flight (non-terminal)
workflows, `finished` the terminal ones. -/
structure SchedState where
  avail : Nat
  waiting : Nat
  running : Nat
  finished : Nat
deriving Repr, DecidableEq

/-- Initial scheduler state: `asyncio.Semaphore(k)` fresh, all `n`
workflows pending. -/
def initState (k n : Nat) : SchedState :=
  ⟨k, n, 0, 0⟩

/-- One scheduler transition: a pending workflow acquires the semaphore
(possible only while the counter is positive) and becomes in-flight, or an
in-flight workflow terminates and releases the semaphore. -/
inductive SchedStep : SchedState → SchedState → Prop
  | acquire (s : SchedState) (hw : 0 < s.waiting) (ha : 0 < s.avail) :
      SchedStep s ⟨s.avail - 1, s.waiting - 1, s.running + 1, s.finished⟩
  | release (s : SchedState) (hr : 0 < s.running) :
      SchedStep s ⟨s.avail + 1, s.waiting, s.running - 1, s.finished + 1⟩

/-- Scheduler states reachable during a run with concurrency limit `k`
over `n` dispatched workflows. -/
inductive Reachable (k n : Nat) : SchedState → Prop
  | init : Reachable k n (initState k n)
  | step {s t : SchedState} : Reachable k n s → SchedStep s t → Reachable k n t

/- Concrete data used by witnesses and counterexamples. -/

/-- A concrete descriptor. -/
def song1 : SongInfo :=
  ⟨1, 100, "mp3", 320, "a1b2"⟩

/-- A concrete detail-lookup result. -/
def detail1 : SongDetail :=
  ⟨"t", ["artist1"], "album1"⟩

/-- Environment whose import call reports a failure with an error code
other than -100. -/
def envRejectOther : RemoteEnv :=
  ⟨fun _ => .ok false, fun _ => .ok [detail1], fun _ => .ok ⟨[], [⟨1, -5⟩]⟩⟩

/-- Environment whose import call reports a failure with every error code
equal to -100. -/
def envRejectAll100 : RemoteEnv :=
  ⟨fun _ => .ok false, fun _ => .ok [detail1], fun _ => .ok ⟨[], [⟨1, -100⟩]⟩⟩

/-- Environment reporting the song already present in the cloud. -/
def envAlready : RemoteEnv :=
  ⟨fun _ => .ok true, fun _ => .ok [detail1], fun _ => .ok ⟨[1], []⟩⟩

/-- Environment whose existence check raises. -/
def envExcept : RemoteEnv :=
  ⟨fun _ => .error (), fun _ => .ok [detail1], fun _ => .ok ⟨[1], []⟩⟩

/-- Environment whose detail lookup returns no details. -/
def envNoDetails : RemoteEnv :=
  ⟨fun _ => .ok false, fun _ => .ok [], fun _ => .ok ⟨[1], []⟩⟩

/-- A three-song catalog with ids 1, 2, 3. -/
def songs123 : List SongInfo :=
  [⟨1, 10, "mp3", 128, "m1"⟩, ⟨2, 20, "mp3", 128, "m2"⟩, ⟨3, 30, "mp3", 128, "m3"⟩]

/-- If the descriptor at index `i` has the marker id and no earlier
descriptor does, the enumerate-scan finds exactly index `i`. -/
theorem resumeScan_eq_some_of_first (songs : List SongInfo) (m : Int) (i : Nat)
    (hi : i < songs.length)
    (hmatch : (songs.get ⟨i, hi⟩).id = m)
    (hfirst : ∀ s ∈ songs.take i, s.id ≠ m) :
    resumeScan songs m = some i := by
  induction songs generalizing i with
  | nil => simp at hi
  | cons hd tl ih =>
    cases i with
    | zero =>
      simp only [List.get] at hmatch
      simp [resumeScan, hmatch]
    | succ j =>
      have hhd : hd.id ≠ m := hfirst hd (by simp [List.take_succ_cons])
      have hrest : resumeScan tl m = some j :=
        ih j (by simpa using hi) (by simpa using hmatch)
          (fun s hs => hfirst s (by simp [List.take_succ_cons, hs]))
      simp [resumeScan, hhd, hrest]

/-- If no descriptor has the marker id, the enumerate-scan finds nothing. -/
theorem resumeScan_eq_none (songs : List SongInfo) (m : Int)
    (h : ∀ s ∈ songs, s.id ≠ m) :
    resumeScan songs m = none := by
  induction songs with
  | nil => rfl
  | cons hd tl ih =>
    simp [resumeScan, h hd (by simp), ih (fun s hs => h s (by simp [hs]))]

/-- Reachable scheduler states keep the semaphore counter plus the
in-flight count equal to the concurrency limit. -/
theorem schedInvariant (k n : Nat) (s : SchedState) (h : Reachable k n s) :
    s.avail + s.running = k := by
  induction h with
  | init => simp [initState]
  | step hprev hstep ih =>
    cases hstep with
    | acquire hw ha => dsimp only; omega
    | release hr => dsimp only; omega

/-- Claim C1 counterexample: the remote import call answers with a failure
(no successful songs, a single failure entry with code -5), yet the
workflow performs zero Failure Ledger appends rather than exactly one. -/
theorem importFailureNotAlwaysRecorded :
    envRejectOther.importSong ⟨song1, "artist1", "album1"⟩ =
      .ok ⟨[], [⟨1, -5⟩]⟩ ∧
    (uploadOneSong envRejectOther song1).2.2 = [] :=
  ⟨rfl, rfl⟩

/-- Claim C1 (amended): when the remote service answers the import request
with a failure (no successful songs reported), the workflow performs
exactly one append of the song id to the Failure Ledger if every reported
failure entry has error code -100 (vacuously so when the failure list is
empty), and zero appends otherwise. -/
theorem importFailureLedgerAppend (env : RemoteEnv) (song : SongInfo)
    (d : SongDetail) (ds : List SongDetail) (a : String) (rest : List String)
    (resp : ImportResponse)
    (h1 : env.hasUploaded song.id = .ok false)
    (h2 : env.songDetails song.id = .ok (d :: ds))
    (h3 : d.ar = a :: rest)
    (h4 : env.importSong ⟨song, a, d.al⟩ = .ok resp)
    (h5 : resp.successSongs = []) :
    (uploadOneSong env song).2.2 =
      if resp.failed.all (fun f => f.code = -100) then [song.id] else [] := by
  cases hc : resp.failed.all (fun f => decide (f.code = -100)) with
  | false =>
    simp [uploadOneSong, tryToUploadOneSong, sendUploadRequest, h1, h2, h3, h4,
      h5, hc]
  | true =>
    simp [uploadOneSong, tryToUploadOneSong, sendUploadRequest, h1, h2, h3, h4,
      h5, hc]

/-- Claim C1 witness: in an environment whose import call reports failure
with all codes -100, the workflow appends exactly the song id. -/
theorem importFailureLedgerAppend_witness :
    (uploadOneSong envRejectAll100 song1).2.2 =
      if (ImportResponse.mk [] [⟨1, -100⟩]).failed.all (fun f => f.code = -100)
      then [song1.id] else [] :=
  importFailureLedgerAppend envRejectAll100 song1 detail1 [] "artist1" []
    ⟨[], [⟨1, -100⟩]⟩ rfl rfl rfl rfl rfl

/-- Claim C2 counterexample: a present-but-empty ledger file makes the
resume computation raise IndexError (`ids[-1]` on an empty list) instead
of returning the full descriptor list. -/
theorem emptyLedgerRaises :
    getResumeSongInfoList songs123 (some []) = .error () := rfl

/-- Claim C2 (amended): if the ledger file is absent the resume
computation returns the full descriptor list unchanged; if the ledger file
exists but contains no lines, the computation raises an uncaught
IndexError instead of returning a list. -/
theorem absentLedgerFullList (songs : List SongInfo) :
    getResumeSongInfoList songs none = .ok (songs, .noFailureRecord) ∧
    getResumeSongInfoList songs (some []) = .error () :=
  ⟨rfl, rfl⟩

/-- Claim C3: for a non-empty ledger whose last entry equals the id of the
descriptor at index `i` (the first such index), the resume computation
returns exactly the sub-sequence starting at index `i + 1`, of length
`songs.length - i - 1`. -/
theorem resumeAfterLastFailure (songs : List SongInfo) (entries : List Int)
    (m : Int) (i : Nat) (hi : i < songs.length)
    (hlast : entries.getLast? = some m)
    (hmatch : (songs.get ⟨i, hi⟩).id = m)
    (hfirst : ∀ s ∈ songs.take i, s.id ≠ m) :
    getResumeSongInfoList songs (some entries) =
      .ok (songs.drop (i + 1), .matchedAt (i + 1) m) ∧
    (songs.drop (i + 1)).length = songs.length - i - 1 := by
  constructor
  · simp only [getResumeSongInfoList, getLastFailedId, hlast,
      resumeScan_eq_some_of_first songs m i hi hmatch hfirst]
  · simp only [List.length_drop]
    omega

/-- Claim C3 witness: catalog with ids 1, 2, 3 and ledger `[2]` resumes at
the third descriptor. -/
theorem resumeAfterLastFailure_witness :
    getResumeSongInfoList songs123 (some [2]) =
      .ok (songs123.drop 2, .matchedAt 2 2) ∧
    (songs123.drop 2).length = songs123.length - 1 - 1 :=
  resumeAfterLastFailure songs123 [2] 2 1 (by decide) rfl (by decide) (by decide)

/-- Claim C4: for a non-empty ledger whose last entry matches no
descriptor id, the resume computation returns the full descriptor list
unchanged and emits the no-match informational note. -/
theorem resumeNoMatchFullList (songs : List SongInfo) (entries : List Int)
    (m : Int)
    (hlast : entries.getLast? = some m)
    (hnone : ∀ s ∈ songs, s.id ≠ m) :
    getResumeSongInfoList songs (some entries) = .ok (songs, .noMatch) := by
  simp only [getResumeSongInfoList, getLastFailedId, hlast,
    resumeScan_eq_none songs m hnone]

/-- Claim C4 witness: ledger `[9]` matches no id in the 1, 2, 3 catalog,
so the full catalog is returned with the no-match note. -/
theorem resumeNoMatchFullList_witness :
    ([9] : List Int).getLast? = some 9 ∧
    getResumeSongInfoList songs123 (some [9]) = .ok (songs123, .noMatch) :=
  ⟨rfl, resumeNoMatchFullList songs123 [9] 9 rfl (by decide)⟩

/-- Claim C5: a workflow whose existence check reports the song already in
the cloud terminates as Skipped, having issued exactly one remote call
(the existence check) and zero Failure Ledger appends. -/
theorem skippedExactlyOneCall (env : RemoteEnv) (song : SongInfo)
    (h : env.hasUploaded song.id = .ok true) :
    uploadOneSong env song = (.skipped, [.existenceCheck song.id], []) := by
  simp [uploadOneSong, tryToUploadOneSong, h]

/-- Claim C5 witness: in an environment reporting the song present, the
workflow is Skipped after one existence check and no appends. -/
theorem skippedExactlyOneCall_witness :
    envAlready.hasUploaded song1.id = .ok true ∧
    uploadOneSong envAlready song1 = (.skipped, [.existenceCheck song1.id], []) :=
  ⟨rfl, skippedExactlyOneCall envAlready song1 rfl⟩

/-- Claim C6: an exception escaping the inner workflow is caught at the
per-workflow boundary and converted into an append of the song id; the
run still produces one result per dispatched song, each depending only on
its own song (no workflow aborts another or the run). -/
theorem exceptionCaughtAtBoundary (env : RemoteEnv) (song : SongInfo)
    (calls : List RemoteCall) (appends : List Int)
    (h : tryToUploadOneSong env song = (.error (), calls, appends)) :
    uploadOneSong env song = (.failedException, calls, appends ++ [song.id]) ∧
    ∀ songs : List SongInfo,
      (asyncUploadSongs env songs).length = songs.length ∧
      ∀ i : Nat, (asyncUploadSongs env songs).get? i =
        (songs.get? i).map (uploadOneSong env) := by
  refine ⟨?_, fun songs => ⟨?_, fun i => ?_⟩⟩
  · simp [uploadOneSong, h]
  · simp [asyncUploadSongs]
  · simp [asyncUploadSongs]

/-- Claim C6 witness: an environment whose existence check raises yields a
caught failedException outcome, an append of the song id, and a completed
one-song run. -/
theorem exceptionCaughtAtBoundary_witness :
    uploadOneSong envExcept song1 =
      (.failedException, [.existenceCheck song1.id], [] ++ [song1.id]) ∧
    (asyncUploadSongs envExcept [song1]).length = 1 :=
  ⟨(exceptionCaughtAtBoundary envExcept song1 [.existenceCheck song1.id] [] rfl).1,
   ((exceptionCaughtAtBoundary envExcept song1 [.existenceCheck song1.id] [] rfl).2
      [song1]).1⟩

/-- Claim C7: a workflow whose detail lookup returns an empty list
terminates as Failed(no-details), with no import call issued and no
Failure Ledger append. -/
theorem noDetailsNoImportNoAppend (env : RemoteEnv) (song : SongInfo)
    (h1 : env.hasUploaded song.id = .ok false)
    (h2 : env.songDetails song.id = .ok []) :
    uploadOneSong env song =
      (.failedNoDetails, [.existenceCheck song.id, .detailLookup song.id], []) := by
  simp [uploadOneSong, tryToUploadOneSong, h1, h2]

/-- Claim C7 witness: an environment returning no details yields
Failed(no-details) after the existence check and detail lookup only. -/
theorem noDetailsNoImportNoAppend_witness :
    envNoDetails.hasUploaded song1.id = .ok false ∧
    envNoDetails.songDetails song1.id = .ok [] ∧
    uploadOneSong envNoDetails song1 =
      (.failedNoDetails, [.existenceCheck song1.id, .detailLookup song1.id], []) :=
  ⟨rfl, rfl, noDetailsNoImportNoAppend envNoDetails song1 rfl rfl⟩

/-- Claim C8 counterexample: a catalog file whose content is valid JSON
but not an object (here a JSON string) does not satisfy the required
catalog shape, and the catalog read raises an uncaught AttributeError
instead of yielding an empty descriptor list. -/
theorem nonObjectCatalogRaises :
    readSongsData (.ok (Json.str "oops")) = .error () := rfl

/-- Claim C8 (amended): for every catalog file whose content fails JSON
decoding, the catalog read yields an empty descriptor list and logs a
parse error, and the run proceeds; a file decoding to a non-object value
instead raises an uncaught AttributeError. -/
theorem decodeErrorYieldsEmpty :
    readSongsData (.error ()) = .ok (Json.arr [], true) ∧
    readSongsData (.ok (Json.arr [])) = .error () :=
  ⟨rfl, rfl⟩

/-- Claim C9: during a run with positive concurrency limit `k`, no
reachable scheduler state has more than `k` workflows in-flight. -/
theorem concurrencyBound (k n : Nat) (s : SchedState) (hk : 0 < k)
    (h : Reachable k n s) : s.running ≤ k := by
  have hinv := schedInvariant k n s h
  omega

/-- Claim C9 witness: with limit 2 and one dispatched workflow, the state
after one acquire has one in-flight workflow, at most 2. -/
theorem concurrencyBound_witness :
    0 < 2 ∧ (SchedState.mk 1 0 1 0).running ≤ 2 :=
  ⟨by decide, concurrencyBound 2 1 ⟨1, 0, 1, 0⟩ (by decide)
    (Reachable.step Reachable.init
      (SchedStep.acquire (initState 2 1) (by decide) (by decide)))⟩

/-- Claim C10: whenever the resume computation returns a list, that list
is a contiguous suffix of the input: the drop of the input at some index
(index 0 giving the whole list), order and elements preserved. -/
theorem resumeIsSuffix (songs : List SongInfo) (ledger : Option (List Int))
    (res : List SongInfo) (note : ResumeNote)
    (h : getResumeSongInfoList songs ledger = .ok (res, note)) :
    ∃ n, res = songs.drop n := by
  unfold getResumeSongInfoList at h
  cases ledger with
  | none =>
    simp only [getLastFailedId, Except.ok.injEq, Prod.mk.injEq] at h
    exact ⟨0, by simp [h.1.symm]⟩
  | some entries =>
    cases hl : entries.getLast? with
    | none => simp [getLastFailedId, hl] at h
    | some m =>
      simp only [getLastFailedId, hl] at h
      cases hs : resumeScan songs m with
      | none =>
        simp only [hs, Except.ok.injEq, Prod.mk.injEq] at h
        exact ⟨0, by simp [h.1.symm]⟩
      | some i =>
        simp only [hs, Except.ok.injEq, Prod.mk.injEq] at h
        exact ⟨i + 1, h.1.symm⟩

/-- Claim C10 witness: the slice returned for ledger `[2]` over the
1, 2, 3 catalog is a drop of the catalog. -/
theorem resumeIsSuffix_witness :
    ∃ n, songs123.drop 2 = songs123.drop n :=
  resumeIsSuffix songs123 (some [2]) (songs123.drop 2) (.matchedAt 2 2) rfl

end Up163Cloud
